import Mathlib

/-!
Verification of the Ludwig configuration-validation and hyperopt-scheduler
configuration subsystem: a shallow embedding of
`ludwig/schema/hyperopt/scheduler.py`, `ludwig/schema/hyperopt/search_algorithm.py`
and `ludwig/config_validation/validation.py`, with theorems about the
polymorphic scheduler/search-algorithm field loaders, the top-level schema
assembler, the custom array-tolerant validator and the validation orchestrator.
-/

namespace LudwigSpec

/-- Python-style configuration values: the JSON-like data (plus tuples) that
appears in Ludwig configuration mappings.  Numbers are embedded exactly:
integers as `Int`, floats as `Rat` (every numeric literal appearing in the
excerpt is a small decimal, represented exactly).  Dictionaries are
association lists with string keys in insertion order, keys unique. -/
inductive PyVal where
  | pyNone : PyVal
  | pyBool : Bool → PyVal
  | pyInt : Int → PyVal
  | pyFloat : Rat → PyVal
  | pyStr : String → PyVal
  | pyList : List PyVal → PyVal
  | pyTuple : List PyVal → PyVal
  | pyDict : List (String × PyVal) → PyVal

/-- The error kinds raised in the excerpt.  `typeError` models a Python
`TypeError`, `validationError` a `marshmallow.ValidationError`, `lookupError`
a `KeyError`/`LookupError`.  `configError` is modelled from the spec: section 7
of the spec names a distinct ConfigError kind for definition-time failures; no
code in the excerpt constructs such an error, so no definition below ever
produces it. -/
inductive PyError where
  | typeError : String → PyError
  | validationError : String → PyError
  | lookupError : String → PyError
  | configError : String → PyError
  deriving DecidableEq, Repr

/-- `d[key]` as `dict.get`: first (unique) matching key of the association
list. -/
def dictGet : List (String × PyVal) → String → Option PyVal
  | [], _ => none
  | (k, v) :: tl, key => if k = key then some v else dictGet tl key

/-- `v.get(key, dflt)` on a mapping value (the orchestrator only applies it to
mappings). -/
def pyGetD (v : PyVal) (key : String) (dflt : PyVal) : PyVal :=
  match v with
  | .pyDict d => (dictGet d key).getD dflt
  | _ => dflt

/-- A value as a Python number (int or float), for marshmallow number fields,
which accept both. -/
def asNumber : PyVal → Option Rat
  | .pyInt n => some (mkRat n 1)
  | .pyFloat q => some q
  | _ => none

/-- Lower-casing of one ASCII character. -/
def charLower (c : Char) : Char :=
  if ('A' ≤ c ∧ c ≤ 'Z') then Char.ofNat (c.toNat + 32) else c

/-- Python `str.lower()`, restricted to ASCII, which covers every
discriminator string in the excerpt. -/
def pyLower (s : String) : String := ⟨s.data.map charLower⟩

/-- Modelled from the spec: the per-field constraint descriptors produced by
the helpers of `ludwig.schema.utils` (`StringOptions`, `PositiveInteger`,
`NonNegativeInteger`, `NonNegativeFloat`, `FloatRange`, `Boolean`, `Dict`,
`String`, `FloatRangeTupleDataclassField`), whose module is not part of the
excerpt.  Spec section 4.2: `PositiveInteger` means integer with minimum 1,
`NonNegativeFloat` means number with minimum 0, `FloatRange(min,max)` means
number with both bounds, string fields with a fixed options list admit exactly
those options, and optional fields allow a null union.  Each descriptor
carries its declared default (spec section 3: a default must itself satisfy
the descriptor's constraints). -/
inductive FieldSpec where
  | stringOptions : List String → Option String → Bool → FieldSpec
  | positiveInteger : Int → FieldSpec
  | nonNegativeInteger : Int → FieldSpec
  | nonNegativeFloat : Rat → FieldSpec
  | floatRange : Rat → Rat → Rat → FieldSpec
  | boolean : Bool → FieldSpec
  | optionalDict : FieldSpec
  | optionalString : FieldSpec
  | floatPair : Rat → Rat → FieldSpec
  deriving DecidableEq, Repr

/-- Modelled from the spec: validation of one supplied field value against its
descriptor (spec sections 4.2 and 4.4); a failed constraint is a
marshmallow-style `ValidationError`.  `stringOptions opts dflt allowNone`
accepts exactly the listed options (plus null when the field is nullable);
numeric descriptors accept ints and floats within bounds (`FloatRange` bounds
inclusive, spec section 8: the boundary values succeed); `floatPair` accepts a
two-element tuple or list of numbers. -/
def validateField : FieldSpec → PyVal → Except PyError PyVal
  | .stringOptions opts _ allowNone, v =>
    match v with
    | .pyNone => if allowNone then .ok .pyNone else .error (.validationError "Field may not be null.")
    | .pyStr s => if opts.contains s then .ok (.pyStr s)
                  else .error (.validationError "Must be one of the declared options.")
    | _ => .error (.validationError "Not a valid string.")
  | .positiveInteger _, v =>
    match v with
    | .pyInt n => if 1 ≤ n then .ok (.pyInt n) else .error (.validationError "Must be at least 1.")
    | _ => .error (.validationError "Not a valid integer.")
  | .nonNegativeInteger _, v =>
    match v with
    | .pyInt n => if 0 ≤ n then .ok (.pyInt n) else .error (.validationError "Must be at least 0.")
    | _ => .error (.validationError "Not a valid integer.")
  | .nonNegativeFloat _, v =>
    match asNumber v with
    | some q => if 0 ≤ q then .ok (.pyFloat q) else .error (.validationError "Must be at least 0.")
    | none => .error (.validationError "Not a valid number.")
  | .floatRange _ lo hi, v =>
    match asNumber v with
    | some q => if lo ≤ q ∧ q ≤ hi then .ok (.pyFloat q)
                else .error (.validationError "Out of range.")
    | none => .error (.validationError "Not a valid number.")
  | .boolean _, v =>
    match v with
    | .pyBool b => .ok (.pyBool b)
    | _ => .error (.validationError "Not a valid boolean.")
  | .optionalDict, v =>
    match v with
    | .pyNone => .ok .pyNone
    | .pyDict d => .ok (.pyDict d)
    | _ => .error (.validationError "Not a valid mapping.")
  | .optionalString, v =>
    match v with
    | .pyNone => .ok .pyNone
    | .pyStr s => .ok (.pyStr s)
    | _ => .error (.validationError "Not a valid string.")
  | .floatPair _ _, v =>
    match v with
    | .pyTuple [a, b] | .pyList [a, b] =>
      match asNumber a, asNumber b with
      | some x, some y => .ok (.pyTuple [.pyFloat x, .pyFloat y])
      | _, _ => .error (.validationError "Not a valid pair of numbers.")
    | _ => .error (.validationError "Not a valid pair of numbers.")

/-- The declared default of a descriptor, used for a field the input omits. -/
def fieldDefault : FieldSpec → PyVal
  | .stringOptions _ dflt _ => match dflt with | some s => .pyStr s | none => .pyNone
  | .positiveInteger d => .pyInt d
  | .nonNegativeInteger d => .pyInt d
  | .nonNegativeFloat d => .pyFloat d
  | .floatRange d _ _ => .pyFloat d
  | .boolean d => .pyBool d
  | .optionalDict => .pyNone
  | .optionalString => .pyNone
  | .floatPair a b => .pyTuple [.pyFloat a, .pyFloat b]

/-- Modelled from the spec: `SomeConfig.Schema().load` over the class's
declared fields (spec section 4.4): a supplied field is validated against its
descriptor, an omitted field takes its declared default; the loaded config
object is the mapping from field name to value in declaration order. -/
def loadFields : List (String × FieldSpec) → List (String × PyVal) →
    Except PyError (List (String × PyVal))
  | [], _ => .ok []
  | (n, spec) :: rest, input =>
    match (match dictGet input n with
           | some v => validateField spec v
           | none => .ok (fieldDefault spec)) with
    | .error e => .error e
    | .ok v =>
      match loadFields rest input with
      | .error e => .error e
      | .ok tl => .ok ((n, v) :: tl)

/-- The input keys that are not declared fields of the class. -/
def unknownKeys (fields : List (String × FieldSpec)) (input : List (String × PyVal)) :
    List String :=
  (input.map Prod.fst).filter (fun k => !((fields.map Prod.fst).contains k))

/-- Modelled from the spec: full `Schema().load` of a marshmallow-dataclass
config class (spec section 4.4: an unknown extra field is a field-level
constraint violation, like a wrong type or an out-of-range value). -/
def schemaLoad (fields : List (String × FieldSpec)) (input : List (String × PyVal)) :
    Except PyError (List (String × PyVal)) :=
  if unknownKeys fields input = [] then loadFields fields input
  else .error (.validationError "Unknown field.")

/-- Modelled from the spec: `Schema().dump` of a raw mapping; dump serializes
the declared fields, reading the input where present and the declared default
otherwise, without validating (marshmallow dump does not validate). -/
def dumpFields : List (String × FieldSpec) → List (String × PyVal) →
    List (String × PyVal)
  | [], _ => []
  | (n, spec) :: rest, input =>
    (n, (dictGet input n).getD (fieldDefault spec)) :: dumpFields rest input

/-- `Except` success as a Bool. -/
def isOkE : Except PyError α → Bool
  | .ok _ => true
  | .error _ => false

/-- Whether an `Except` ended in a `ValidationError`-kind error. -/
def isValidationErrorE : Except PyError α → Bool
  | .error (.validationError _) => true
  | _ => false

/-- Whether an `Except` ended in a `TypeError`-kind error. -/
def isTypeErrorE : Except PyError α → Bool
  | .error (.typeError _) => true
  | _ => false

/-- Whether an `Except` ended in a `ConfigError`-kind error. -/
def isConfigErrorE : Except PyError α → Bool
  | .error (.configError _) => true
  | _ => false

/-- The scheduler config classes defined in `ludwig/schema/hyperopt/scheduler.py`
(every subclass of `BaseSchedulerConfig`). -/
inductive SchedClass where
  | asyncHyperband
  | hyperband
  | medianStoppingRule
  | populationBasedTraining
  | populationBasedTrainingReplay
  | populationBasedBandits
  | bohb
  | fifo
  | resourceChanging
  deriving DecidableEq, Repr

/-- `DEFAULT_RESULT_KEYS` of `scheduler.py` (duplicated there from ray.tune). -/
def DEFAULT_RESULT_KEYS : List String :=
  ["training_iteration", "time_total_s", "timesteps_total", "mean_accuracy", "mean_loss"]

/-- `RAY_TUNE_DESULT_DEFAULT_METRIC` of `scheduler.py`. -/
def RAY_TUNE_DESULT_DEFAULT_METRIC : String := "_metric"

/-- The shared `metric` field: `StringOptions` over the result keys plus the
default metric, default `None` (an `Optional[str]`, so null is allowed). -/
def metricField : FieldSpec :=
  .stringOptions (DEFAULT_RESULT_KEYS ++ [RAY_TUNE_DESULT_DEFAULT_METRIC]) none true

/-- The shared `mode` field: one of min/max, default `None`. -/
def modeField : FieldSpec := .stringOptions ["min", "max"] none true

/-- A `time_attr` field with the given default. -/
def timeAttrField (dflt : String) : FieldSpec :=
  .stringOptions DEFAULT_RESULT_KEYS (some dflt) false

/-- The declared fields of each scheduler config class, in declaration order,
transcribed from `scheduler.py` (class bodies of `AsyncHyperbandSchedulerConfig`
through `ResourceChangingSchedulerConfig`). -/
def classFields : SchedClass → List (String × FieldSpec)
  | .asyncHyperband =>
    [("type", .stringOptions ["async_hyperband"] (some "async_hyperband") false),
     ("time_attr", timeAttrField "training_iteration"),
     ("metric", metricField),
     ("mode", modeField),
     ("max_t", .positiveInteger 100),
     ("grace_period", .positiveInteger 1),
     ("reduction_factor", .nonNegativeFloat 4)]
  | .hyperband =>
    [("type", .stringOptions ["hyperband"] (some "hyperband") false),
     ("time_attr", timeAttrField "training_iteration"),
     ("metric", metricField),
     ("mode", modeField),
     ("max_t", .positiveInteger 81),
     ("reduction_factor", .nonNegativeFloat 3),
     ("stop_last_trials", .boolean true)]
  | .medianStoppingRule =>
    [("type", .stringOptions ["median_stopping_rule"] (some "median_stopping_rule") false),
     ("time_attr", timeAttrField "time_total_s"),
     ("metric", metricField),
     ("mode", modeField),
     ("grace_period", .nonNegativeFloat 60),
     ("min_samples_required", .positiveInteger 3),
     ("min_time_slice", .nonNegativeInteger 0),
     ("hard_stop", .boolean true)]
  | .populationBasedTraining =>
    [("type", .stringOptions ["pbt"] (some "pbt") false),
     ("time_attr", timeAttrField "time_total_s"),
     ("metric", metricField),
     ("mode", modeField),
     ("perturbation_interval", .nonNegativeFloat 60),
     ("burn_in_period", .nonNegativeFloat 60),
     ("hyperparam_mutations", .optionalDict),
     ("quantile_fraction", .floatRange (mkRat 1 4) 0 (mkRat 1 2)),
     ("resample_probability", .nonNegativeFloat (mkRat 1 4)),
     ("perturbation_factors", .floatPair (mkRat 6 5) (mkRat 4 5)),
     ("custom_explore_fn", .optionalString),
     ("log_config", .boolean true),
     ("require_attrs", .boolean true),
     ("synch", .boolean false)]
  | .populationBasedTrainingReplay =>
    [("type", .stringOptions ["pbt_replay"] (some "pbt_replay") false),
     ("policy_file", .optionalString)]
  | .populationBasedBandits =>
    [("type", .stringOptions ["pb2"] (some "pb2") false),
     ("time_attr", timeAttrField "time_total_s"),
     ("metric", metricField),
     ("mode", modeField),
     ("perturbation_interval", .nonNegativeFloat 60),
     ("hyperparam_bounds", .optionalDict),
     ("quantile_fraction", .floatRange (mkRat 1 4) 0 (mkRat 1 2)),
     ("log_config", .boolean true),
     ("require_attrs", .boolean true),
     ("synch", .boolean false)]
  | .bohb =>
    [("type", .stringOptions ["bohb"] (some "bohb") false),
     ("time_attr", timeAttrField "training_iteration"),
     ("metric", metricField),
     ("mode", modeField),
     ("max_t", .positiveInteger 81),
     ("reduction_factor", .nonNegativeFloat 3),
     ("stop_last_trials", .boolean true)]
  | .fifo =>
    [("type", .stringOptions ["fifo"] (some "fifo") false)]
  | .resourceChanging =>
    [("type", .stringOptions ["resource_changing"] (some "resource_changing") false),
     ("base_scheduler", .optionalString),
     ("resources_allocation_function", .optionalString)]

/-- `scheduler_config_registry`, in registration order.  Each
`register_scheduler_config(name)` decorator stores the config class itself
under `name` (`scheduler_config_registry[name] = scheduler_config`); stacked
decorators apply innermost first, so e.g. `asynchyperband` is registered
before `async_hyperband`. -/
def scheduler_config_registry : List (String × SchedClass) :=
  [("asynchyperband", .asyncHyperband),
   ("async_hyperband", .asyncHyperband),
   ("hyperband", .hyperband),
   ("medianstoppingrule", .medianStoppingRule),
   ("median_stopping_rule", .medianStoppingRule),
   ("pbt", .populationBasedTraining),
   ("pbt_replay", .populationBasedTrainingReplay),
   ("pb2", .populationBasedBandits),
   ("hb_bohb", .bohb),
   ("fifo", .fifo),
   ("resource_changing", .resourceChanging)]

/-- The registered scheduler discriminator values. -/
def schedulerRegistryKeys : List String := scheduler_config_registry.map Prod.fst

/-- `scheduler_config_registry[name]`: registry lookup. -/
def schedulerLookup (name : String) : Option SchedClass :=
  (scheduler_config_registry.find? (fun kv => kv.1 = name)).map Prod.snd

/-- `value["type"] in scheduler_config_registry`: registry membership of a
raw value; the registry keys are strings, so a non-string discriminator is
never a member. -/
def registryContainsVal (v : PyVal) : Bool :=
  match v with
  | .pyStr s => schedulerRegistryKeys.contains s
  | _ => false

/-- The result of a polymorphic field `_deserialize`: either the pass-through
of a null value (`return None`) or a loaded config object. -/
inductive DeserResult where
  | absent : DeserResult
  | config : List (String × PyVal) → DeserResult

/-- The expression `scheduler_config_registry[value["type"].lower()][1]` of
`OptimizerMarshmallowField._deserialize` subscripts a registry entry.  The
scheduler registry stores the config classes themselves (see
`register_scheduler_config`), not (implementation, config) pairs like the
optimizer registry this code parallels; a Python class object supports no
subscripting (none of these classes defines a `__class_getitem__`), so the
expression raises `TypeError: type object is not subscriptable`.  The
expression sits outside the `try` block, so this error propagates raw. -/
def classGetitem (_cls : SchedClass) (_i : Int) : Except PyError SchedClass :=
  .error (.typeError "type object is not subscriptable")

/-- Message of `scheduler.py` line 596: raised for a mapping without a
registered `type`. -/
def invalidParamsMsg : String :=
  "Invalid params for optimizer, expect dict with at least a valid type attribute."

/-- Message of `scheduler.py` line 599: raised for a value that is neither
None nor a mapping. -/
def fieldNoneOrDictMsg : String := "Field should be None or dict"

/-- Message of `scheduler.py` line 594: load failures re-raised as one
aggregated error. -/
def invalidOptimizerParamsMsg : String :=
  "Invalid params for optimizer, see the config class definition."

/-- `OptimizerMarshmallowField._deserialize` of `scheduler.py` (lines
584-599): None passes through; for a mapping whose `type` is registered, the
code evaluates `scheduler_config_registry[value["type"].lower()][1]` (see
`classGetitem`) and would then load the value against the class inside a
`try` that re-raises `TypeError`/`ValidationError` as one aggregated
`ValidationError`; a mapping without a registered `type` and a non-mapping
value raise the two `ValidationError`s quoted in the source. -/
def optimizerDeserialize (value : PyVal) : Except PyError DeserResult :=
  match value with
  | .pyNone => .ok .absent
  | .pyDict d =>
    match dictGet d "type" with
    | some tv =>
      if registryContainsVal tv then
        match tv with
        | .pyStr s =>
          match schedulerLookup (pyLower s) with
          | some cls =>
            match classGetitem cls 1 with
            | .error e => .error e
            | .ok opt =>
              match schemaLoad (classFields opt) d with
              | .ok loaded => .ok (.config loaded)
              | .error _ => .error (.validationError invalidOptimizerParamsMsg)
          | none => .error (.lookupError "scheduler type not registered")
        | _ => .error (.validationError invalidParamsMsg)
      else .error (.validationError invalidParamsMsg)
    | none => .error (.validationError invalidParamsMsg)
  | _ => .error (.validationError fieldNoneOrDictMsg)

/-- The value `SchedulerDataclassField` builds on success: the resolved
load/dump defaults that become the field's metadata. -/
structure SchedulerFieldInfo where
  loadDefault : List (String × PyVal)
  dumpDefault : List (String × PyVal)

/-- Message of `scheduler.py` line 621. -/
def invalidDefaultMsg : String := "Invalid default."

/-- Message of `scheduler.py` line 640. -/
def unsupportedSchedulerMsg : String :=
  "Unsupported scheduler type, see scheduler_config_registry."

/-- `SchedulerDataclassField` of `scheduler.py` (lines 620-641), the
construction-time part: if the default is not a mapping, lacks a `type` key,
or its `type` is not a registered discriminator, it raises
`ValidationError("Invalid default: ...")`; otherwise it looks the class up
under the lowercased `type` and resolves `load_default`/`dump_default`
through the class schema inside a `try` whose `except Exception` re-raises
any failure as `ValidationError("Unsupported scheduler type: ...")`. -/
def SchedulerDataclassField (dflt : PyVal) : Except PyError SchedulerFieldInfo :=
  match dflt with
  | .pyDict d =>
    match dictGet d "type" with
    | some (.pyStr s) =>
      if schedulerRegistryKeys.contains s then
        match schedulerLookup (pyLower s) with
        | some opt =>
          match schemaLoad (classFields opt) d with
          | .ok loaded => .ok ⟨loaded, dumpFields (classFields opt) d⟩
          | .error _ => .error (.validationError unsupportedSchedulerMsg)
        | none => .error (.validationError unsupportedSchedulerMsg)
      else .error (.validationError invalidDefaultMsg)
    | some _ => .error (.validationError invalidDefaultMsg)
    | none => .error (.validationError invalidDefaultMsg)
  | _ => .error (.validationError invalidDefaultMsg)

/-- The branch condition of `SchedulerDataclassField`, as a Bool: the default
is rejected at field-construction time exactly when it is not a mapping, has
no `type` key, has an unregistered `type`, or fails its own variant's field
constraints. -/
def schedulerDefaultBad (dflt : PyVal) : Bool :=
  match dflt with
  | .pyDict d =>
    match dictGet d "type" with
    | some (.pyStr s) =>
      if schedulerRegistryKeys.contains s then
        match schedulerLookup (pyLower s) with
        | some opt => !(isOkE (schemaLoad (classFields opt) d))
        | none => true
      else true
    | some _ => true
    | none => true
  | _ => true

/-- Modelled from the spec: the keys of `search_algorithm_registry`
(`ludwig.hyperopt.registry`, outside the excerpt).  The excerpt fixes only
that `hyperopt` (the `type` default of `BaseSearchAlgorithmConfig`) and
`variant_generator` (the builder's default) are registered; by the spec's
invariant that a declared default satisfies its own descriptor, both are
registry keys. -/
def searchAlgorithmRegistryKeys : List String := ["variant_generator", "hyperopt"]

/-- The declared fields of `BaseSearchAlgorithmConfig`
(`search_algorithm.py` lines 11-19): a single `type` field whose options are
the registered search-algorithm names, default `hyperopt`, not nullable. -/
def searchAlgorithmFields : List (String × FieldSpec) :=
  [("type", .stringOptions searchAlgorithmRegistryKeys (some "hyperopt") false)]

/-- Message of `search_algorithm.py` line 31. -/
def invalidSearchParamsMsg : String :=
  "Invalid params for scheduler, see SearchAlgorithmConfig class."

/-- Message of `search_algorithm.py` line 32. -/
def fieldShouldBeDictMsg : String := "Field should be dict"

/-- `SearchAlgorithmMarshmallowField._deserialize` of `search_algorithm.py`
(lines 26-32): a mapping is loaded through `BaseSearchAlgorithmConfig.Schema()`
with `TypeError`/`ValidationError` re-raised as one aggregated
`ValidationError`; every other value, null included, raises
`ValidationError("Field should be dict")`. -/
def searchAlgorithmDeserialize (value : PyVal) : Except PyError DeserResult :=
  match value with
  | .pyDict d =>
    match schemaLoad searchAlgorithmFields d with
    | .ok loaded => .ok (.config loaded)
    | .error _ => .error (.validationError invalidSearchParamsMsg)
  | _ => .error (.validationError fieldShouldBeDictMsg)

/-- Section names of the top-level schema, from `ludwig.constants` (module
outside the excerpt); modelled from the spec, section 3, which lists the
top-level section names, and section 8, whose end-to-end example fixes the
ECD model type string as `ecd`. -/
def MODEL_TYPE : String := "model_type"

/-- Top-level section name, see `MODEL_TYPE`. -/
def INPUT_FEATURES : String := "input_features"

/-- Top-level section name, see `MODEL_TYPE`. -/
def OUTPUT_FEATURES : String := "output_features"

/-- Top-level section name, see `MODEL_TYPE`. -/
def TRAINER : String := "trainer"

/-- Top-level section name, see `MODEL_TYPE`. -/
def PREPROCESSING : String := "preprocessing"

/-- Top-level section name, see `MODEL_TYPE`. -/
def HYPEROPT : String := "hyperopt"

/-- Top-level section name, see `MODEL_TYPE`. -/
def DEFAULTS : String := "defaults"

/-- Top-level section name, see `MODEL_TYPE`. -/
def LUDWIG_VERSION : String := "ludwig_version"

/-- Top-level section name, see `MODEL_TYPE`. -/
def BACKEND : String := "backend"

/-- Top-level section name, see `MODEL_TYPE`. -/
def COMBINER : String := "combiner"

/-- Preprocessing sub-key, see `MODEL_TYPE`. -/
def SPLIT : String := "split"

/-- The ECD model type string, see `MODEL_TYPE`. -/
def MODEL_ECD : String := "ecd"

/-- A node of the assembled top-level schema.  The two builders defined in
`validation.py` itself (`get_ludwig_version_jsonschema`,
`get_backend_jsonschema`) carry their concrete JSON value; the builders
imported from collaborator modules (features, trainer, preprocessing,
hyperopt, defaults, combiner - modelled from the spec, which treats their
contents as out of scope) are opaque tagged nodes, with the model-type
argument recorded where the source passes one. -/
inductive SchemaNode where
  | json : PyVal → SchemaNode
  | external : String → SchemaNode
  | externalMT : String → String → SchemaNode

/-- `get_ludwig_version_jsonschema` of `validation.py` (lines 35-40). -/
def get_ludwig_version_jsonschema : SchemaNode :=
  .json (.pyDict
    [("type", .pyStr "string"),
     ("title", .pyStr "ludwig_version"),
     ("description", .pyStr "Current Ludwig model schema version.")])

/-- `get_backend_jsonschema` of `validation.py` (lines 43-50). -/
def get_backend_jsonschema : SchemaNode :=
  .json (.pyDict
    [("type", .pyStr "object"),
     ("title", .pyStr "backend"),
     ("description", .pyStr "Backend configuration."),
     ("additionalProperties", .pyBool true)])

/-- The assembled top-level schema: its properties mapping (in insertion
order), required list and additionalProperties flag, the parts of the schema
dict of `get_schema` that the claims are about. -/
structure TopLevelSchema where
  properties : List (String × SchemaNode)
  required : List String
  additionalProperties : Bool

/-- `get_schema(model_type)` of `validation.py` (lines 53-77): the base
schema maps the nine section names to their builders' nodes, requires exactly
input_features and output_features, and sets additionalProperties false; the
`combiner` property is added afterwards exactly when `model_type == MODEL_ECD`.
(The `lru_cache` decorator memoizes this pure function; the embedding is the
function itself.) -/
def get_schema (model_type : String) : TopLevelSchema :=
  let base : TopLevelSchema :=
    { properties :=
        [(MODEL_TYPE, .externalMT "model_type_jsonschema" model_type),
         (INPUT_FEATURES, .externalMT "input_feature_jsonschema" model_type),
         (OUTPUT_FEATURES, .externalMT "output_feature_jsonschema" model_type),
         (TRAINER, .externalMT "trainer_jsonschema" model_type),
         (PREPROCESSING, .external "preprocessing_jsonschema"),
         (HYPEROPT, .external "hyperopt_jsonschema"),
         (DEFAULTS, .external "defaults_jsonschema"),
         (LUDWIG_VERSION, get_ludwig_version_jsonschema),
         (BACKEND, get_backend_jsonschema)],
      required := [INPUT_FEATURES, OUTPUT_FEATURES],
      additionalProperties := false }
  if model_type = MODEL_ECD then
    { base with properties := base.properties ++ [(COMBINER, .external "combiner_jsonschema")] }
  else base

/-- `custom_is_array` of `get_validator` (`validation.py` lines 84-85): a
value type-checks as a JSON-schema array when it is a list or a tuple. -/
def custom_is_array (inst : PyVal) : Bool :=
  (match inst with | .pyList _ => true | _ => false) ||
  (match inst with | .pyTuple _ => true | _ => false)

/-- The `Draft7Validator.TYPE_CHECKER` judgement for the primitive JSON-schema
types the excerpt relies on; the base dialect accepts only lists as arrays
(the comment in `get_validator` cites exactly this gap for tuples). -/
def draft7TypeCheck (ty : String) (inst : PyVal) : Bool :=
  if ty = "array" then (match inst with | .pyList _ => true | _ => false)
  else if ty = "object" then (match inst with | .pyDict _ => true | _ => false)
  else if ty = "string" then (match inst with | .pyStr _ => true | _ => false)
  else if ty = "boolean" then (match inst with | .pyBool _ => true | _ => false)
  else if ty = "null" then (match inst with | .pyNone => true | _ => false)
  else if ty = "integer" then (match inst with | .pyInt _ => true | _ => false)
  else if ty = "number" then (asNumber inst).isSome
  else false

/-- `TYPE_CHECKER.redefine("array", custom_is_array)`: the checker with the
array judgement replaced. -/
def redefineArray (base : String → PyVal → Bool) (f : PyVal → Bool) :
    String → PyVal → Bool :=
  fun ty inst => if ty = "array" then f inst else base ty inst

/-- `get_validator` of `validation.py` (lines 82-90): the validator class it
extends from `Draft7Validator` differs only in its type checker, so the
embedding is that checker - the Draft7 judgement with "array" redefined to
`custom_is_array`.  (The `lru_cache` memoizes the construction; the embedding
is the constructed checker.) -/
def get_validator : String → PyVal → Bool :=
  redefineArray draft7TypeCheck custom_is_array

/-- What one call to the validation orchestrator does, as data: the upgraded
config produced by the Version Upgrader collaborator, the keyword options the
Splitter factory is constructed from, the config passed to
`splitter.validate(...)`, and the argument passed to the structural
`validate(...)` call (made under `VALIDATION_LOCK`) together with the schema
argument `get_schema` is called with. -/
structure ValidateTrace where
  upgradedConfig : PyVal
  splitterOptions : PyVal
  splitterValidateArg : PyVal
  structuralValidateArg : PyVal
  modelTypeArg : PyVal

/-- `validate_upgraded_config(updated_config)` of `validation.py` (lines
102-113): reads `model_type` (default `MODEL_ECD`), constructs the splitter
from `updated_config.get(PREPROCESSING, {}).get(SPLIT, {})`, calls
`splitter.validate(updated_config)`, then under the lock validates
`updated_config` against `get_schema(model_type)`.  The collaborators
(splitter, jsonschema validate) are external; the embedding records the
arguments each receives. -/
def validate_upgraded_config (updated_config : PyVal) : ValidateTrace :=
  { upgradedConfig := updated_config,
    splitterOptions := pyGetD (pyGetD updated_config PREPROCESSING (.pyDict [])) SPLIT (.pyDict []),
    splitterValidateArg := updated_config,
    structuralValidateArg := updated_config,
    modelTypeArg := pyGetD updated_config MODEL_TYPE (.pyStr MODEL_ECD) }

/-- `validate_config(config)` of `validation.py` (lines 123-131):
`updated_config = upgrade_config_dict_to_latest_version(config)` (the Version
Upgrader collaborator, passed in as a function), then
`validate_upgraded_config(updated_config)`. -/
def validate_config (upgrade : PyVal → PyVal) (config : PyVal) : ValidateTrace :=
  validate_upgraded_config (upgrade config)

/-- A value is None or a mapping (the two shapes the scheduler field
deserializer accepts). -/
def isNoneOrDict : PyVal → Bool
  | .pyNone => true
  | .pyDict _ => true
  | _ => false

/-- A value is a mapping. -/
def isDictV : PyVal → Bool
  | .pyDict _ => true
  | _ => false

/-- A mapping has a `type` entry registered in the scheduler registry (the
guard of `OptimizerMarshmallowField._deserialize` line 588). -/
def schedTypeRecognized (d : List (String × PyVal)) : Bool :=
  match dictGet d "type" with
  | some tv => registryContainsVal tv
  | none => false

/-- Field access on the result of a schema load: the loaded object's entry
when the load succeeded. -/
def loadedGet (e : Except PyError (List (String × PyVal))) (k : String) : Option PyVal :=
  match e with
  | .ok r => dictGet r k
  | .error _ => none

/-- C1: for every discriminator value registered in the scheduler registry,
deserializing the minimal mapping with that `type` through
`OptimizerMarshmallowField._deserialize` does not succeed with a defaulted
config object: it raises an uncaught `TypeError`, because the deserializer
subscripts the registered config class with `[1]` (the scheduler registry
stores classes, not pairs) before the `try` block is entered. -/
theorem c1_registered_type_load_raises_type_error (d : String)
    (hd : d ∈ schedulerRegistryKeys) :
    optimizerDeserialize (.pyDict [("type", .pyStr d)])
      = .error (.typeError "type object is not subscriptable") := by
  simp only [schedulerRegistryKeys, scheduler_config_registry, List.map_cons, List.map_nil,
    List.mem_cons, List.not_mem_nil, or_false] at hd
  rcases hd with rfl|rfl|rfl|rfl|rfl|rfl|rfl|rfl|rfl|rfl|rfl <;> rfl

/-- C1 witness: the failure at the concrete registered discriminator
`async_hyperband`. -/
theorem c1_registered_type_load_witness :
    optimizerDeserialize (.pyDict [("type", .pyStr "async_hyperband")])
      = .error (.typeError "type object is not subscriptable") :=
  c1_registered_type_load_raises_type_error "async_hyperband" (by decide)

/-- C2 (amended): `validate_config` first upgrades the raw config, and the
splitter collaborator's `validate` is invoked against the *upgraded* config
(the same mapping the structural validator then receives), not against the
original raw config. -/
theorem c2_splitter_receives_upgraded_config :
    ∀ (upgrade : PyVal → PyVal) (config : PyVal),
      (validate_config upgrade config).upgradedConfig = upgrade config
      ∧ (validate_config upgrade config).splitterValidateArg = upgrade config
      ∧ (validate_config upgrade config).structuralValidateArg = upgrade config :=
  fun _ _ => ⟨rfl, rfl, rfl⟩

/-- C2 counterexample: under an upgrader that rewrites the (empty) raw config
to a different mapping, the splitter receives the upgraded mapping, which is
not the original raw config - refuting the claim that the splitter validates
the original raw config. -/
theorem c2_splitter_not_given_raw_config :
    (validate_config (fun _ => .pyDict [("ludwig_version", .pyStr "0.8")])
        (.pyDict [])).splitterValidateArg
      = .pyDict [("ludwig_version", .pyStr "0.8")]
    ∧ PyVal.pyDict [("ludwig_version", PyVal.pyStr "0.8")] ≠ .pyDict [] :=
  ⟨rfl, by simp⟩

/-- C3: for every model type string, `get_schema` requires exactly
input_features and output_features, sets additionalProperties to false, and
contains a combiner property exactly when the model type is the ECD model
type. -/
theorem c3_get_schema_shape : ∀ model_type : String,
    (get_schema model_type).required = [INPUT_FEATURES, OUTPUT_FEATURES]
    ∧ (get_schema model_type).additionalProperties = false
    ∧ ((((get_schema model_type).properties.map Prod.fst).contains COMBINER = true)
        ↔ model_type = MODEL_ECD) := by
  intro model_type
  by_cases h : model_type = MODEL_ECD
  · subst h
    refine ⟨rfl, rfl, ?_⟩
    simp [get_schema]
  · refine ⟨?_, ?_, ?_⟩
    · simp [get_schema, h]
    · simp [get_schema, h]
    · simp [get_schema, h, MODEL_TYPE, INPUT_FEATURES, OUTPUT_FEATURES, TRAINER,
        PREPROCESSING, HYPEROPT, DEFAULTS, LUDWIG_VERSION, BACKEND, COMBINER]

/-- C4 (amended): the scheduler field deserializer passes a null value
through (returns None without error), and any value that is neither null nor
a mapping fails with a `ValidationError`-kind error stating the field should
be None or dict (a marshmallow `ValidationError`, not a `TypeError`). -/
theorem c4_null_passthrough_non_mapping_validation_error :
    optimizerDeserialize .pyNone = .ok .absent
    ∧ ∀ v : PyVal, isNoneOrDict v = false →
        optimizerDeserialize v = .error (.validationError fieldNoneOrDictMsg) := by
  refine ⟨rfl, ?_⟩
  intro v hv
  cases v <;> simp [isNoneOrDict] at hv ⊢ <;> rfl

/-- C4 counterexample: at the non-mapping value `5` the deserializer raises a
`ValidationError`-kind error, not a `TypeError`-kind one as the claim
states. -/
theorem c4_non_mapping_error_not_type_error :
    optimizerDeserialize (.pyInt 5) = .error (.validationError fieldNoneOrDictMsg)
    ∧ isTypeErrorE (optimizerDeserialize (.pyInt 5)) = false := ⟨rfl, rfl⟩

/-- C5 (amended): for the scheduler family, a mapping whose `type` is absent
or unregistered fails with a `ValidationError`; for the search-algorithm
family an unregistered `type` fails likewise, but a mapping without a `type`
key succeeds, silently returning the config with the default type
`hyperopt`. -/
theorem c5_missing_or_unknown_type_behavior :
    (∀ d : List (String × PyVal), schedTypeRecognized d = false →
        optimizerDeserialize (.pyDict d) = .error (.validationError invalidParamsMsg))
    ∧ (∀ s : String, s ∉ searchAlgorithmRegistryKeys →
        searchAlgorithmDeserialize (.pyDict [("type", .pyStr s)])
          = .error (.validationError invalidSearchParamsMsg))
    ∧ searchAlgorithmDeserialize (.pyDict [])
        = .ok (.config [("type", .pyStr "hyperopt")]) := by
  refine ⟨?_, ?_, rfl⟩
  · intro d hd
    unfold optimizerDeserialize
    unfold schedTypeRecognized at hd
    rcases hT : dictGet d "type" with _ | tv
    · simp [hT]
    · simp [hT] at hd ⊢
      simp [hd]
  · intro s hs
    simp [searchAlgorithmDeserialize, schemaLoad, unknownKeys, loadFields, validateField,
      searchAlgorithmFields, dictGet, hs]

/-- C5 counterexample: the search-algorithm deserializer, given a mapping
with no `type` key at all, succeeds and silently returns the default-typed
config object, refuting the claim that every family rejects a missing
discriminator. -/
theorem c5_search_algorithm_missing_type_silently_defaults :
    searchAlgorithmDeserialize (.pyDict []) = .ok (.config [("type", .pyStr "hyperopt")]) := rfl

/-- C6 (amended): `SchedulerDataclassField` fails fast at field-construction
time, with a marshmallow `ValidationError` (not a `ConfigError`-kind error),
exactly when its default is not a mapping, lacks a `type` key, has an
unregistered `type`, or fails the chosen variant's own field constraints; in
every other case construction succeeds, so no such error is deferred. -/
theorem c6_scheduler_field_fails_fast_with_validation_error : ∀ dflt : PyVal,
    isValidationErrorE (SchedulerDataclassField dflt) = schedulerDefaultBad dflt
    ∧ isOkE (SchedulerDataclassField dflt) = !(schedulerDefaultBad dflt)
    ∧ isConfigErrorE (SchedulerDataclassField dflt) = false := by
  intro dflt
  unfold SchedulerDataclassField schedulerDefaultBad
  rcases dflt with _|_|_|_|_|_|_|d <;>
    simp [isValidationErrorE, isOkE, isConfigErrorE]
  rcases hT : dictGet d "type" with _ | tv
  · simp [hT, isValidationErrorE, isOkE, isConfigErrorE]
  rcases tv with _|_|_|_|s|_|_|_ <;>
    simp [hT, isValidationErrorE, isOkE, isConfigErrorE]
  cases hc : schedulerRegistryKeys.contains s <;> simp at hc
  · simp [hc, isValidationErrorE, isOkE, isConfigErrorE]
  cases hl : schedulerLookup (pyLower s)
  · simp [hc, hl, isValidationErrorE, isOkE, isConfigErrorE]
  rename_i cls
  cases hld : schemaLoad (classFields cls) d
  · simp [hc, hl, hld, isValidationErrorE, isOkE, isConfigErrorE]
  · simp [hc, hl, hld, isValidationErrorE, isOkE, isConfigErrorE]

/-- C6 counterexample: at the malformed default `5` construction fails with a
`ValidationError`-kind error and not with a `ConfigError`-kind error as the
claim states. -/
theorem c6_bad_default_error_not_config_error :
    SchedulerDataclassField (.pyInt 5) = .error (.validationError invalidDefaultMsg)
    ∧ isConfigErrorE (SchedulerDataclassField (.pyInt 5)) = false := ⟨rfl, rfl⟩

/-- C7: loading the hyperband variant's default mapping through the scheduler
field loader does not round-trip - the very first load already raises an
uncaught `TypeError` from the class subscript `[1]`, so no serialize/re-load
cycle can begin. -/
theorem c7_hyperband_default_load_raises_type_error :
    optimizerDeserialize (.pyDict [("type", .pyStr "hyperband"), ("max_t", .pyInt 81),
        ("reduction_factor", .pyInt 3), ("stop_last_trials", .pyBool true)])
      = .error (.typeError "type object is not subscriptable") := rfl

/-- C8: for the pbt variant, a supplied `quantile_fraction` loads exactly
when it lies in the closed interval from 0 to one half: three fifths (0.6) is
rejected with an out-of-range `ValidationError`, the boundary values 0 and
one half are accepted, and omitting the field yields the declared default of
one quarter (0.25). -/
theorem c8_pbt_quantile_fraction_bounds :
    (∀ x : Rat,
      (isOkE (schemaLoad (classFields .populationBasedTraining)
          [("type", .pyStr "pbt"), ("quantile_fraction", .pyFloat x)]) = true)
        ↔ (0 ≤ x ∧ x ≤ mkRat 1 2))
    ∧ schemaLoad (classFields .populationBasedTraining)
        [("type", .pyStr "pbt"), ("quantile_fraction", .pyFloat (mkRat 3 5))]
        = .error (.validationError "Out of range.")
    ∧ isOkE (schemaLoad (classFields .populationBasedTraining)
        [("type", .pyStr "pbt"), ("quantile_fraction", .pyFloat 0)]) = true
    ∧ isOkE (schemaLoad (classFields .populationBasedTraining)
        [("type", .pyStr "pbt"), ("quantile_fraction", .pyFloat (mkRat 1 2))]) = true
    ∧ loadedGet (schemaLoad (classFields .populationBasedTraining)
        [("type", .pyStr "pbt")]) "quantile_fraction" = some (.pyFloat (mkRat 1 4)) := by
  refine ⟨?_, rfl, rfl, rfl, rfl⟩
  intro x
  by_cases h1 : (0:Rat) ≤ x
  · by_cases h2 : x ≤ mkRat 1 2
    · simp [schemaLoad, unknownKeys, loadFields, validateField, classFields, metricField,
        modeField, timeAttrField, dictGet, fieldDefault, asNumber, isOkE, h1, h2]
    · simp [schemaLoad, unknownKeys, loadFields, validateField, classFields, metricField,
        modeField, timeAttrField, dictGet, fieldDefault, asNumber, isOkE, h1, h2]
  · simp [schemaLoad, unknownKeys, loadFields, validateField, classFields, metricField,
      modeField, timeAttrField, dictGet, fieldDefault, asNumber, isOkE, h1]

/-- C9: the validator built by `get_validator` judges a value to be of
JSON-schema type array exactly when it is a list or a tuple; in particular
the pair 1.2, 0.8 is accepted both as a tuple and as a list, while the base
Draft7 dialect rejects the tuple form. -/
theorem c9_validator_array_iff_list_or_tuple :
    (∀ v : PyVal, get_validator "array" v = true ↔
        ((∃ xs, v = .pyList xs) ∨ (∃ xs, v = .pyTuple xs)))
    ∧ get_validator "array" (.pyTuple [.pyFloat (mkRat 6 5), .pyFloat (mkRat 4 5)]) = true
    ∧ get_validator "array" (.pyList [.pyFloat (mkRat 6 5), .pyFloat (mkRat 4 5)]) = true
    ∧ draft7TypeCheck "array" (.pyTuple [.pyFloat (mkRat 6 5), .pyFloat (mkRat 4 5)]) = false := by
  refine ⟨?_, rfl, rfl, rfl⟩
  intro v
  cases v <;> simp [get_validator, redefineArray, custom_is_array]

/-- C10: the search-algorithm field deserializer raises a
`ValidationError`-kind error for every value that is not a mapping - null
included, which is not passed through as absent at this layer. -/
theorem c10_search_algorithm_rejects_non_mapping :
    searchAlgorithmDeserialize .pyNone = .error (.validationError fieldShouldBeDictMsg)
    ∧ ∀ v : PyVal, isDictV v = false →
        searchAlgorithmDeserialize v = .error (.validationError fieldShouldBeDictMsg) := by
  refine ⟨rfl, ?_⟩
  intro v hv
  cases v <;> first
    | rfl
    | simp [isDictV] at hv

end LudwigSpec
